import Mathlib

/-!
Verification of the weather-aks freshness-and-dedup ingestion pipeline.

Shallow embedding of `src/image/main.py` (the pipeline service) and of the
relevant parts of `src/main.py` (the older handler). Dates are modelled at
day granularity: a calendar date is an `Int` day number, and the normalized
`YYYY-MM-DD` date string used for dedup comparisons is modelled as `String`.
External calls (store queries, forecast fetch, ingest) are modelled as
oracle data carried in an environment record; the functions under study are
translated line by line from the Python source.
-/

namespace WeatherAks

/-- One daily-series response from the forecast client: the `daily`
dictionary of `weather_data`.  `time` is the ordered list of date strings;
`attrs` are the remaining keys in dict order, each value being
`Option String` (`none` models Python `None`). -/
structure DailySeries where
  time : List String
  attrs : List (String × List (Option String))
deriving DecidableEq, Repr

/-- A row of the freshness query response:
`LatestDate = max(Date), DataPoints = count()`.  A `none` latest date models
the Kusto `null` returned when the city has no rows. -/
structure FreshRow where
  latestDate : Option Int
  dataPoints : Int
deriving DecidableEq, Repr

/-- An opaque store-query error (a raised exception in the Kusto client). -/
structure QErr where
  msg : String
deriving DecidableEq, Repr

/-- Python `str(value) if value is not None else ""` for a cell value. -/
def pyStr : Option String → String
  | some s => s
  | none => ""

/-- Indexing a list of values at a list of positions, failing (IndexError)
when any position is out of range: models the loop body accesses
`daily_data[key][i]`. -/
def getAll (xs : List α) : List Nat → Option (List α)
  | [] => some []
  | i :: is =>
    (xs.get? i).bind fun v => (getAll xs is).map fun vs => v :: vs

/-- The index set kept by the dedup loop
`for i in range(len(dates)): if dates[i] not in existing_dates`. -/
def keptIndices (dates : List String) (existing : List String) : List Nat :=
  (List.range dates.length).filter (fun i => !(existing.contains (dates.getD i "")))

/-- The dedup filter of `ensure_fresh_data` (src/image/main.py lines
206-219): build `filtered_daily_data` by keeping, for every key of
`daily_data`, exactly the positions whose date string is absent from
`existing_dates`.  Returns `none` when an attribute sequence is too short
for a kept index (a Python IndexError, caught by the surrounding
`except`). -/
def filterSeries (existing : List String) (d : DailySeries) : Option DailySeries :=
  let idx := keptIndices d.time existing
  (getAll d.time idx).bind fun t =>
    (filterAttrs idx d.attrs).map fun a => ⟨t, a⟩
where
  /-- Filter every non-time attribute sequence by the same index set. -/
  filterAttrs (idx : List Nat) : List (String × List (Option String)) →
      Option (List (String × List (Option String)))
  | [] => some []
  | p :: rest =>
    (getAll p.2 idx).bind fun vs =>
      (filterAttrs idx rest).map fun r => (p.1, vs) :: r

/-- `check_data_freshness` (src/image/main.py lines 143-174), as a function
of the store's response to the latest-date query and of today's date.
Returns `(is_fresh, latest_date)`; `latest_date = none` models the empty
string returned when the city has no rows. A store failure propagates as
`Except.error` (the Python function wraps the query in no try/except). -/
def check_data_freshness (resp : Except QErr (List FreshRow)) (today : Int) :
    Except QErr (Bool × Option Int) :=
  match resp with
  | .error e => .error e
  | .ok rows =>
    match rows.head? with
    | none => .ok (false, none)
    | some row =>
      match row.latestDate with
      | none => .ok (false, none)
      | some d =>
        let date_difference := (today - d).natAbs
        .ok (decide (date_difference ≤ 1 ∧ row.dataPoints ≥ 30), some d)

/-- The fields of one CSV row built by `prepare_ingestion_data` for index
`i`: `[city, dates[i]]` followed by `str(daily_data[attr][i])` for every
non-time attribute in dict order; `none` on IndexError. -/
def rowFields (city : String) (d : DailySeries) (i : Nat) : Option (List String) :=
  (d.time.get? i).bind fun date =>
    (collect d.attrs i).map fun fields => city :: date :: fields
where
  /-- Collect `str(daily_data[attr][i])` over the attribute list. -/
  collect (attrs : List (String × List (Option String))) (i : Nat) :
      Option (List String) :=
  match attrs with
  | [] => some []
  | p :: rest =>
    (p.2.get? i).bind fun v =>
      (collect rest i).map fun tl => pyStr v :: tl

/-- The loop of `prepare_ingestion_data` over a list of row indices:
build the comma-joined row for each index, aborting on the first
IndexError. -/
def buildRows (city : String) (d : DailySeries) : List Nat → Option (List String)
  | [] => some []
  | i :: is =>
    (rowFields city d i).bind fun r =>
      (buildRows city d is).map fun rs => String.intercalate "," r :: rs

/-- `prepare_ingestion_data` (src/image/main.py lines 116-141): one
comma-joined row per entry of `daily_data["time"]`, iterating
`for i in range(len(dates))`.  `none` models the `except` branch
returning `(None, None)` (an IndexError on a short attribute
sequence). -/
def prepare_ingestion_data (city : String) (d : DailySeries) : Option (List String) :=
  buildRows city d (List.range d.time.length)

/-- Outcome of `get_weather_data`: `fail` models a falsy/`None` response
(client error), `noDaily` a response without the `"daily"` key, and `ok`
a well-formed response carrying its `daily` dictionary. -/
inductive FetchResult where
  | fail
  | noDaily
  | ok (d : DailySeries)
deriving DecidableEq, Repr

/-- Oracle data for one run of `ensure_fresh_data`: today's date and the
outcome of each external call in the order the code can make them. -/
structure Env where
  today : Int
  checkResp1 : Except QErr (List FreshRow)
  fetchResp : FetchResult
  existingResp : Except QErr (List String)
  ingestOk : Bool
  checkResp2 : Except QErr (List FreshRow)
deriving Repr

/-- Result of a run of `ensure_fresh_data`: the returned value (an
uncaught store exception surfaces as `Except.error`) together with a count
of forecast-fetch calls, `prepare_ingestion_data` calls, ingest calls and
freshness-check invocations. -/
structure RunResult where
  result : Except QErr Bool
  fetchCalls : Nat
  prepareCalls : Nat
  ingestCalls : Nat
  checkCalls : Nat
deriving Repr

/-- The tail of `ensure_fresh_data` from line 232 on: prepare the rows
(`if not ingestion_data: return False`, which also fires on an empty list),
ingest them, then re-run the freshness check inside the same `try`; a
re-check that raises is caught and yields `False`, a re-check reporting
not-fresh yields `False`, otherwise `True`. -/
def ingestPhase (city : String) (env : Env) (daily : DailySeries) : RunResult :=
  match prepare_ingestion_data city daily with
  | none => ⟨.ok false, 1, 1, 0, 1⟩
  | some [] => ⟨.ok false, 1, 1, 0, 1⟩
  | some (_ :: _) =>
    if !env.ingestOk then ⟨.ok false, 1, 1, 1, 1⟩
    else
      match check_data_freshness env.checkResp2 env.today with
      | .error _ => ⟨.ok false, 1, 1, 1, 2⟩
      | .ok (f2, _) => ⟨.ok f2, 1, 1, 1, 2⟩

/-- `ensure_fresh_data` (src/image/main.py lines 176-268) against the
oracle environment.  The first freshness check's store error propagates
(no enclosing try); when not fresh the forecast is fetched, then, only if
`latest_date` is non-empty, the existing-dates set is queried and the
series deduplicated (any exception there yields `False`, an empty filtered
series yields `True` with no ingestion); otherwise the (filtered) series
is prepared, ingested and re-verified. -/
def ensure_fresh_data (city : String) (env : Env) : RunResult :=
  match check_data_freshness env.checkResp1 env.today with
  | .error e => ⟨.error e, 0, 0, 0, 1⟩
  | .ok (is_fresh, latest_date) =>
    if is_fresh then ⟨.ok true, 0, 0, 0, 1⟩
    else
      match env.fetchResp with
      | .fail => ⟨.ok false, 1, 0, 0, 1⟩
      | .noDaily => ⟨.ok false, 1, 0, 0, 1⟩
      | .ok daily =>
        match latest_date with
        | none => ingestPhase city env daily
        | some _ =>
          match env.existingResp with
          | .error _ => ⟨.ok false, 1, 0, 0, 1⟩
          | .ok existing =>
            match filterSeries existing daily with
            | none => ⟨.ok false, 1, 0, 0, 1⟩
            | some fd =>
              if fd.time.isEmpty then ⟨.ok true, 1, 0, 0, 1⟩
              else ingestPhase city env fd

/-- The `weather_codes` dictionary of `get_weather_stats`
(src/image/main.py lines 293-318), in source order. -/
def weather_codes : List (Int × String) :=
  [(0, "Clear sky"), (1, "Mainly clear"), (2, "Partly cloudy"), (3, "Overcast"),
   (45, "Foggy"), (48, "Depositing rime fog"),
   (51, "Light drizzle"), (53, "Moderate drizzle"), (55, "Dense drizzle"),
   (61, "Slight rain"), (63, "Moderate rain"), (65, "Heavy rain"),
   (71, "Slight snow fall"), (73, "Moderate snow fall"), (75, "Heavy snow fall"),
   (77, "Snow grains"),
   (80, "Slight rain showers"), (81, "Moderate rain showers"), (82, "Violent rain showers"),
   (85, "Slight snow showers"), (86, "Heavy snow showers"),
   (95, "Thunderstorm"), (96, "Thunderstorm with slight hail"),
   (99, "Thunderstorm with heavy hail")]

/-- The `icon_map` dictionary of `get_weather_stats`
(src/image/main.py lines 319-344), in source order. -/
def icon_map : List (Int × String) :=
  [(0, "01d"), (1, "01d"), (2, "02d"), (3, "03d"),
   (45, "03d"), (48, "03d"),
   (51, "09d"), (53, "09d"), (55, "09d"),
   (61, "09d"), (63, "09d"), (65, "09d"),
   (71, "13d"), (73, "13d"), (75, "13d"), (77, "13d"),
   (80, "09d"), (81, "09d"), (82, "09d"),
   (85, "13d"), (86, "13d"),
   (95, "11d"), (96, "11d"), (99, "11d")]

/-- `weather_codes.get(weather_code, "Unknown")`. -/
def weatherDescription (code : Int) : String :=
  (weather_codes.lookup code).getD "Unknown"

/-- `icon_map.get(weather_code, "01d")`. -/
def weatherIcon (code : Int) : String :=
  (icon_map.lookup code).getD "01d"

end WeatherAks

namespace WeatherMain

/-!
Model of the older handler in `src/main.py`: `get_city_coordinates`
returns a tuple of differing arity on its two paths, and the `/weather`
handler unpacks that tuple into three variables unconditionally.
-/

/-- A Python value appearing in the coordinate tuple. -/
inductive PyVal where
  | pyNone
  | num (x : Int)
  | str (s : String)
deriving DecidableEq, Repr

/-- Outcome of the geocoder call inside `get_city_coordinates`:
`ok` when `geo_data["results"]` is non-empty, `failed` when `results` is
missing/empty or the request raised. -/
inductive GeoOutcome where
  | ok (lat lon : Int) (name : String)
  | failed
deriving DecidableEq, Repr

/-- `get_city_coordinates` (src/main.py lines 54-66): a three-element
tuple on success, a TWO-element `(None, None)` tuple on both failure
paths. -/
def get_city_coordinates (g : GeoOutcome) : List PyVal :=
  match g with
  | .ok lat lon name => [.num lat, .num lon, .str name]
  | .failed => [.pyNone, .pyNone]

/-- Python tuple unpacking `lat, lon, guessed_city = t`: succeeds exactly
on three-element tuples, otherwise raises ValueError. -/
def unpack3 : List PyVal → Option (PyVal × PyVal × PyVal)
  | [a, b, c] => some (a, b, c)
  | _ => none

/-- The HTML responses the `/weather` handler of src/main.py can return. -/
inductive Response where
  | coordNotFound
  | invalidApiResponse
  | couldNotPrepare
  | storingError
  | verificationFailed
  | noData
  | page
  | genericError
deriving DecidableEq, Repr

/-- Oracle data for one run of the src/main.py `/weather` handler
(clients assumed initialized). -/
structure HEnv where
  geo : GeoOutcome
  checkCount : Except WeatherAks.QErr Int
  fetchResp : WeatherAks.FetchResult
  ingestOk : Bool
  verifyCount : Except WeatherAks.QErr Int
  statsHasRow : Except WeatherAks.QErr Bool
deriving Repr

/-- The `/weather` handler of src/main.py (lines 171-289), from the
coordinate lookup on: the coordinate tuple is unpacked into three
variables (a ValueError lands in the generic `except` at line 287), the
store row count gates the fetch-and-ingest branch, and inside that branch
`lat is None or lon is None` returns the dedicated coordinates error. -/
def get_weather (env : HEnv) : Response :=
  match unpack3 (get_city_coordinates env.geo) with
  | none => .genericError
  | some (lat, lon, _guessed) =>
    match env.checkCount with
    | .error _ => .genericError
    | .ok result_count =>
      if result_count < 30 then
        if lat = .pyNone ∨ lon = .pyNone then .coordNotFound
        else
          match env.fetchResp with
          | .fail => .invalidApiResponse
          | .noDaily => .invalidApiResponse
          | .ok daily =>
            match WeatherAks.prepare_ingestion_data "city" daily with
            | none => .couldNotPrepare
            | some [] => .couldNotPrepare
            | some (_ :: _) =>
              if !env.ingestOk then .storingError
              else
                match env.verifyCount with
                | .error _ => .storingError
                | .ok verify_count =>
                  if verify_count < 30 then .verificationFailed
                  else statsPhase env
      else statsPhase env
where
  /-- The statistics tail shared by both branches (lines 248-285). -/
  statsPhase (env : HEnv) : Response :=
  match env.statsHasRow with
  | .error _ => .genericError
  | .ok false => .noData
  | .ok true => .page

end WeatherMain

namespace WeatherAks

lemma getD_cons_succ' (a : α) (t : List α) (i : Nat) (dflt : α) :
    (a :: t).getD (i + 1) dflt = t.getD i dflt := by
  rw [List.getD_eq_getElem?_getD, List.getD_eq_getElem?_getD, List.getElem?_cons_succ]

lemma get?_eq_some_getD (xs : List α) (dflt : α) (i : Nat) (hi : i < xs.length) :
    xs.get? i = some (xs.getD i dflt) := by
  induction xs generalizing i with
  | nil => simp at hi
  | cons a t ih =>
    cases i with
    | zero => rfl
    | succ j =>
      rw [List.get?_cons_succ, getD_cons_succ']
      exact ih j (by simpa using hi)

lemma getAll_map_succ (a : α) (t : List α) (l : List Nat) :
    getAll (a :: t) (l.map Nat.succ) = getAll t l := by
  induction l with
  | nil => rfl
  | cons i is ih => simp only [List.map_cons, getAll, List.get?_cons_succ, ih]

lemma getAll_keptIndices (q : α → Bool) (dflt : α) (xs : List α) :
    getAll xs ((List.range xs.length).filter (fun i => q (xs.getD i dflt))) =
      some (xs.filter q) := by
  induction xs with
  | nil => rfl
  | cons a t ih =>
    rw [show (a :: t).length = t.length + 1 from rfl, List.range_succ_eq_map,
      List.filter_cons]
    have hp : ((fun i => q ((a :: t).getD i dflt)) ∘ Nat.succ) =
        (fun i => q (t.getD i dflt)) := by
      funext i
      show q ((a :: t).getD (i + 1) dflt) = q (t.getD i dflt)
      rw [getD_cons_succ']
    rw [List.filter_map, hp]
    cases hq : q a with
    | true =>
      rw [if_pos (show q ((a :: t).getD 0 dflt) = true from hq)]
      rw [List.filter_cons, if_pos hq]
      simp only [getAll, List.get?_cons_zero, getAll_map_succ]
      rw [ih]
      rfl
    | false =>
      rw [if_neg (show ¬ q ((a :: t).getD 0 dflt) = true by simp [hq])]
      rw [List.filter_cons, if_neg (by simp [hq])]
      rw [getAll_map_succ, ih]

lemma getAll_eq_map (dflt : α) (xs : List α) (l : List Nat)
    (h : ∀ i ∈ l, i < xs.length) :
    getAll xs l = some (l.map (fun i => xs.getD i dflt)) := by
  induction l with
  | nil => rfl
  | cons i is ih =>
    have hi : i < xs.length := h i (List.mem_cons_self i is)
    rw [List.map_cons, getAll, get?_eq_some_getD xs dflt i hi,
      ih (fun j hj => h j (List.mem_cons_of_mem _ hj))]
    rfl

lemma keptIndices_lt (dates existing : List String) :
    ∀ i ∈ keptIndices dates existing, i < dates.length := by
  intro i hi
  exact List.mem_range.mp (List.mem_filter.mp hi).1

lemma mem_keptIndices (dates existing : List String) (i : Nat) :
    i ∈ keptIndices dates existing ↔
      i < dates.length ∧ ¬ (existing.contains (dates.getD i "") = true) := by
  simp [keptIndices, List.mem_filter, List.mem_range]

lemma filterAttrs_spec (idx : List Nat) (attrs : List (String × List (Option String)))
    (h : ∀ p ∈ attrs, ∀ i ∈ idx, i < p.2.length) :
    filterSeries.filterAttrs idx attrs =
      some (attrs.map (fun p => (p.1, idx.map (fun i => p.2.getD i none)))) := by
  induction attrs with
  | nil => rfl
  | cons p rest ih =>
    have h1 : getAll p.2 idx = some (idx.map fun i => p.2.getD i none) :=
      getAll_eq_map none p.2 idx (h p (List.mem_cons_self p rest))
    simp [filterSeries.filterAttrs, h1,
      ih (fun q hq => h q (List.mem_cons_of_mem _ hq))]

lemma filterSeries_eq (existing : List String) (d : DailySeries)
    (hal : ∀ p ∈ d.attrs, p.2.length = d.time.length) :
    filterSeries existing d =
      some ⟨d.time.filter (fun t => !(existing.contains t)),
            d.attrs.map (fun p =>
              (p.1, (keptIndices d.time existing).map (fun i => p.2.getD i none)))⟩ := by
  have ht : getAll d.time (keptIndices d.time existing) =
      some (d.time.filter (fun t => !(existing.contains t))) :=
    getAll_keptIndices (fun t => !(existing.contains t)) "" d.time
  have ha := filterAttrs_spec (keptIndices d.time existing) d.attrs
    (fun p hp i hi => (hal p hp) ▸ keptIndices_lt d.time existing i hi)
  simp [filterSeries, ht, ha]

/-- C1: the freshness check is the conjunction of the 1-day recency bound on
the latest stored date and the 30-row threshold; a city with 29 rows whose
latest date is today is not fresh, and a city with no rows (an empty result
or a null latest date) yields not-fresh with an empty latest date. -/
theorem c1_freshness_check :
    (∀ today d pts : Int, ∃ b : Bool,
      check_data_freshness (.ok [⟨some d, pts⟩]) today = .ok (b, some d) ∧
        (b = true ↔ (today - d).natAbs ≤ 1 ∧ pts ≥ 30)) ∧
    (∀ today : Int,
      check_data_freshness (.ok [⟨some today, 29⟩]) today = .ok (false, some today)) ∧
    (∀ today : Int, check_data_freshness (.ok []) today = .ok (false, none)) ∧
    (∀ today pts : Int,
      check_data_freshness (.ok [⟨none, pts⟩]) today = .ok (false, none)) := by
  refine ⟨?_, ?_, ?_, ?_⟩
  · intro today d pts
    exact ⟨decide ((today - d).natAbs ≤ 1 ∧ pts ≥ 30), rfl, by simp⟩
  · intro today
    simp [check_data_freshness]
  · intro today
    rfl
  · intro today pts
    rfl

/-- C7: a store-query failure during the freshness check surfaces as an
error — never as a not-fresh result — and the error propagates out of
`ensure_fresh_data` to the caller. -/
theorem c7_store_failure_propagates :
    (∀ (e : QErr) (today : Int), check_data_freshness (.error e) today = .error e) ∧
    (∀ (e : QErr) (today : Int) (b : Bool) (l : Option Int),
      check_data_freshness (.error e) today ≠ .ok (b, l)) ∧
    (∀ (city : String) (env : Env) (e : QErr), env.checkResp1 = .error e →
      (ensure_fresh_data city env).result = .error e) := by
  refine ⟨fun e today => rfl, fun e today b l h => by simp [check_data_freshness] at h, ?_⟩
  intro city env e h
  simp [ensure_fresh_data, h, check_data_freshness]

/-- C7 witness: a concrete run whose first store query raises propagates
that error out of `ensure_fresh_data`. -/
theorem c7_store_failure_propagates_witness :
    (Env.mk 0 (.error ⟨"timeout"⟩) .fail (.ok []) true (.ok [])).checkResp1 =
        .error ⟨"timeout"⟩ ∧
    (ensure_fresh_data "paris"
        (Env.mk 0 (.error ⟨"timeout"⟩) .fail (.ok []) true (.ok []))).result =
      .error ⟨"timeout"⟩ :=
  ⟨rfl, c7_store_failure_propagates.2.2 "paris" _ _ rfl⟩

/-- C9 counterexample: the fixed weather-code lookup table has 24 known
codes, not 23 as claimed. -/
theorem c9_code_table_counterexample :
    weather_codes.length ≠ 23 ∧ weather_codes.length = 24 ∧ icon_map.length = 24 := by
  refine ⟨?_, rfl, rfl⟩
  decide

lemma lookup_none_of_keys_eq (l₁ l₂ : List (Int × String))
    (h : l₁.map Prod.fst = l₂.map Prod.fst) (c : Int)
    (hc : l₁.lookup c = none) : l₂.lookup c = none := by
  induction l₁ generalizing l₂ with
  | nil =>
    cases l₂ with
    | nil => rfl
    | cons p t => simp at h
  | cons p t ih =>
    cases l₂ with
    | nil => rfl
    | cons q s =>
      simp only [List.map_cons, List.cons.injEq] at h
      simp only [List.lookup] at hc ⊢
      rw [← h.1]
      cases hbeq : c == p.1 with
      | true => rw [hbeq] at hc; simp at hc
      | false => rw [hbeq] at hc; exact ih s h.2 hc

/-- C9 amended: `get_weather_stats` maps the most recent row's weather code
via a fixed lookup table of 24 known codes; code 0 maps to "Clear sky" with
icon "01d", and every code outside the table (for example 7) maps to the
default "Unknown"/"01d" pair. -/
theorem c9_weather_code_mapping :
    weather_codes.length = 24 ∧
    weatherDescription 0 = "Clear sky" ∧ weatherIcon 0 = "01d" ∧
    weatherDescription 7 = "Unknown" ∧ weatherIcon 7 = "01d" ∧
    (∀ c : Int, weather_codes.lookup c = none →
      weatherDescription c = "Unknown" ∧ weatherIcon c = "01d") := by
  refine ⟨rfl, rfl, rfl, rfl, rfl, ?_⟩
  intro c h
  have hicon : icon_map.lookup c = none :=
    lookup_none_of_keys_eq weather_codes icon_map (by decide) c h
  constructor
  · simp [weatherDescription, h]
  · simp [weatherIcon, hicon]

/-- C9 witness: code 7 is outside the table and gets the default pair. -/
theorem c9_weather_code_mapping_witness :
    weather_codes.lookup 7 = none ∧
    weatherDescription 7 = "Unknown" ∧ weatherIcon 7 = "01d" :=
  ⟨by decide, c9_weather_code_mapping.2.2.2.2.2 7 (by decide)⟩

/-- C2: the dedup filter keeps exactly the in-range indices whose date
string is absent from the existing-dates set, applies that same index set
to every attribute sequence (preserving per-attribute index alignment),
and no date from `existing_dates` survives into the filtered series. -/
theorem c2_dedup_filter (existing : List String) (d : DailySeries)
    (hal : ∀ p ∈ d.attrs, p.2.length = d.time.length) :
    ∃ fd, filterSeries existing d = some fd ∧
      (∀ i, i ∈ keptIndices d.time existing ↔
        i < d.time.length ∧ ¬ (existing.contains (d.time.getD i "") = true)) ∧
      fd.time = d.time.filter (fun t => !(existing.contains t)) ∧
      fd.time = (keptIndices d.time existing).map (fun i => d.time.getD i "") ∧
      (∀ t ∈ fd.time, ¬ t ∈ existing) ∧
      fd.attrs.length = d.attrs.length ∧
      (∀ j (hj : j < d.attrs.length),
        fd.attrs.get? j = some ((d.attrs.get ⟨j, hj⟩).1,
          (keptIndices d.time existing).map
            (fun i => (d.attrs.get ⟨j, hj⟩).2.getD i none))) := by
  refine ⟨_, filterSeries_eq existing d hal, mem_keptIndices d.time existing, rfl, ?_, ?_, ?_, ?_⟩
  · have h1 : getAll d.time (keptIndices d.time existing) =
        some (d.time.filter (fun t => !(existing.contains t))) :=
      getAll_keptIndices (fun t => !(existing.contains t)) "" d.time
    have h2 : getAll d.time (keptIndices d.time existing) =
        some ((keptIndices d.time existing).map (fun i => d.time.getD i "")) :=
      getAll_eq_map "" d.time (keptIndices d.time existing)
        (keptIndices_lt d.time existing)
    rw [h1] at h2
    exact Option.some.inj h2
  · intro t ht habs
    have hpred := (List.mem_filter.mp ht).2
    have helem : existing.elem t = true := List.elem_eq_true_of_mem habs
    rw [show existing.contains t = existing.elem t from rfl, helem] at hpred
    simp at hpred
  · simp
  · intro j hj
    have hget : d.attrs.get? j = some (d.attrs.get ⟨j, hj⟩) := List.get?_eq_get hj
    simp only [List.get?_map, hget, Option.map_some]
    rfl

/-- C2 witness: a two-day series with one attribute and one already-stored
date is filtered down to the remaining day. -/
theorem c2_dedup_filter_witness :
    (∀ p ∈ (DailySeries.mk ["2025-02-16", "2025-02-17"]
        [("temperature_2m_max", [some "7.1", none])]).attrs,
      p.2.length = (DailySeries.mk ["2025-02-16", "2025-02-17"]
        [("temperature_2m_max", [some "7.1", none])]).time.length) ∧
    ∃ fd, filterSeries ["2025-02-16"]
        (DailySeries.mk ["2025-02-16", "2025-02-17"]
          [("temperature_2m_max", [some "7.1", none])]) = some fd ∧
      (∀ i, i ∈ keptIndices ["2025-02-16", "2025-02-17"] ["2025-02-16"] ↔
        i < (["2025-02-16", "2025-02-17"] : List String).length ∧
          ¬ ((["2025-02-16"] : List String).contains
              ((["2025-02-16", "2025-02-17"] : List String).getD i "") = true)) ∧
      fd.time = (["2025-02-16", "2025-02-17"] : List String).filter
        (fun t => !((["2025-02-16"] : List String).contains t)) ∧
      fd.time = (keptIndices ["2025-02-16", "2025-02-17"] ["2025-02-16"]).map
        (fun i => (["2025-02-16", "2025-02-17"] : List String).getD i "") ∧
      (∀ t ∈ fd.time, ¬ t ∈ (["2025-02-16"] : List String)) ∧
      fd.attrs.length = 1 ∧
      (∀ j (hj : j < (1 : Nat)),
        fd.attrs.get? j = some (((([("temperature_2m_max",
            [some "7.1", none])] : List (String × List (Option String))).get ⟨j, hj⟩)).1,
          (keptIndices ["2025-02-16", "2025-02-17"] ["2025-02-16"]).map
            (fun i => (([("temperature_2m_max",
              [some "7.1", none])] : List (String × List (Option String))).get
                ⟨j, hj⟩).2.getD i none))) :=
  ⟨by decide, c2_dedup_filter ["2025-02-16"]
    (DailySeries.mk ["2025-02-16", "2025-02-17"]
      [("temperature_2m_max", [some "7.1", none])]) (by decide)⟩

lemma collect_spec (i : Nat) (attrs : List (String × List (Option String)))
    (h : ∀ p ∈ attrs, i < p.2.length) :
    ∃ fields, rowFields.collect attrs i = some fields ∧
      fields.length = attrs.length := by
  induction attrs with
  | nil => exact ⟨[], rfl, rfl⟩
  | cons p rest ih =>
    obtain ⟨tl, htl, hlen⟩ := ih (fun q hq => h q (List.mem_cons_of_mem _ hq))
    have hp : i < p.2.length := h p (List.mem_cons_self p rest)
    refine ⟨pyStr (p.2.getD i none) :: tl, ?_, by simp [hlen]⟩
    simp only [rowFields.collect]
    rw [get?_eq_some_getD p.2 none i hp, htl]
    rfl

lemma rowFields_spec (city : String) (d : DailySeries) (i : Nat)
    (hi : i < d.time.length)
    (hal : ∀ p ∈ d.attrs, p.2.length = d.time.length) :
    ∃ fields, rowFields.collect d.attrs i = some fields ∧
      fields.length = d.attrs.length ∧
      rowFields city d i = some (city :: d.time.getD i "" :: fields) := by
  obtain ⟨fields, hc, hlen⟩ :=
    collect_spec i d.attrs (fun p hp => (hal p hp) ▸ hi)
  refine ⟨fields, hc, hlen, ?_⟩
  simp only [rowFields]
  rw [get?_eq_some_getD d.time "" i hi, hc]
  rfl

lemma buildRows_spec (city : String) (d : DailySeries) (l : List Nat)
    (h : ∀ i ∈ l, ∃ r, rowFields city d i = some r) :
    ∃ rows, buildRows city d l = some rows ∧ rows.length = l.length ∧
      ∀ j (hj : j < l.length), ∃ r,
        rowFields city d (l.get ⟨j, hj⟩) = some r ∧
        rows.get? j = some (String.intercalate "," r) := by
  induction l with
  | nil => exact ⟨[], rfl, rfl, fun j hj => absurd hj (Nat.not_lt_zero j)⟩
  | cons i is ih =>
    obtain ⟨r, hr⟩ := h i (List.mem_cons_self i is)
    obtain ⟨rows, hrows, hlen, hpt⟩ := ih (fun j hj => h j (List.mem_cons_of_mem _ hj))
    refine ⟨String.intercalate "," r :: rows, ?_, by simp [hlen], ?_⟩
    · simp [buildRows, hr, hrows]
    · intro j hj
      cases j with
      | zero => exact ⟨r, hr, rfl⟩
      | succ k =>
        obtain ⟨r', hr', hrow'⟩ := hpt k (by simpa using hj)
        exact ⟨r', hr', hrow'⟩

/-- C8: for every DailySeries whose attribute sequences all have length
`len(time)`, `prepare_ingestion_data` succeeds with exactly `len(time)`
rows, and row `j` is the comma-join of a field list of length
`2 + number_of_non_time_attributes`, namely the city, the j-th date, then
every non-time attribute value in the fixed dict order. -/
theorem c8_prepare_ingestion_shape (city : String) (d : DailySeries)
    (hal : ∀ p ∈ d.attrs, p.2.length = d.time.length) :
    ∃ rows, prepare_ingestion_data city d = some rows ∧
      rows.length = d.time.length ∧
      ∀ j (hj : j < d.time.length), ∃ fields,
        rowFields.collect d.attrs j = some fields ∧
        (city :: d.time.getD j "" :: fields).length = 2 + d.attrs.length ∧
        rows.get? j = some (String.intercalate ","
          (city :: d.time.getD j "" :: fields)) := by
  have hall : ∀ i ∈ List.range d.time.length, ∃ r, rowFields city d i = some r := by
    intro i hi
    obtain ⟨fields, _, _, hrf⟩ :=
      rowFields_spec city d i (List.mem_range.mp hi) hal
    exact ⟨_, hrf⟩
  obtain ⟨rows, hrows, hlen, hpt⟩ := buildRows_spec city d (List.range d.time.length) hall
  refine ⟨rows, hrows, by simpa using hlen, ?_⟩
  intro j hj
  have hj' : j < (List.range d.time.length).length := by simpa using hj
  obtain ⟨r, hr, hrow⟩ := hpt j hj'
  have hidx : (List.range d.time.length).get ⟨j, hj'⟩ = j := List.get_range j hj'
  rw [hidx] at hr
  obtain ⟨fields, hc, hflen, hrf⟩ := rowFields_spec city d j hj hal
  rw [hrf] at hr
  have hreq : r = city :: d.time.getD j "" :: fields := (Option.some.inj hr).symm
  refine ⟨fields, hc, by simp [hflen]; omega, ?_⟩
  rw [hrow, hreq]

/-- C8 witness: a concrete two-day, two-attribute series yields two rows of
four comma-joined fields each. -/
theorem c8_prepare_ingestion_shape_witness :
    (∀ p ∈ (DailySeries.mk ["2025-02-16", "2025-02-17"]
        [("temperature_2m_max", [some "7.1", none]),
         ("wind_speed_10m_max", [some "12.4", some "9.0"])]).attrs,
      p.2.length = (2 : Nat)) ∧
    ∃ rows, prepare_ingestion_data "paris"
        (DailySeries.mk ["2025-02-16", "2025-02-17"]
          [("temperature_2m_max", [some "7.1", none]),
           ("wind_speed_10m_max", [some "12.4", some "9.0"])]) = some rows ∧
      rows.length = 2 ∧
      ∀ j (hj : j < (2 : Nat)), ∃ fields,
        rowFields.collect [("temperature_2m_max", [some "7.1", none]),
           ("wind_speed_10m_max", [some "12.4", some "9.0"])] j = some fields ∧
        ("paris" :: (["2025-02-16", "2025-02-17"] : List String).getD j "" ::
            fields).length = 2 + 2 ∧
        rows.get? j = some (String.intercalate ","
          ("paris" :: (["2025-02-16", "2025-02-17"] : List String).getD j "" ::
            fields)) :=
  ⟨by decide, c8_prepare_ingestion_shape "paris"
    (DailySeries.mk ["2025-02-16", "2025-02-17"]
      [("temperature_2m_max", [some "7.1", none]),
       ("wind_speed_10m_max", [some "12.4", some "9.0"])]) (by decide)⟩

/-- C3: when the freshness check reports fresh, `ensure_fresh_data`
returns success immediately with zero fetch calls, zero prepare calls
and zero ingest calls. -/
theorem c3_fresh_no_work (city : String) (env : Env) (ld : Option Int)
    (h : check_data_freshness env.checkResp1 env.today = .ok (true, ld)) :
    ensure_fresh_data city env = ⟨.ok true, 0, 0, 0, 1⟩ := by
  simp [ensure_fresh_data, h]

/-- C3 witness: a city with 30 rows up to today triggers no work. -/
theorem c3_fresh_no_work_witness :
    check_data_freshness
        (Env.mk 0 (.ok [⟨some 0, 30⟩]) .fail (.ok []) true (.ok [])).checkResp1
        (Env.mk 0 (.ok [⟨some 0, 30⟩]) .fail (.ok []) true (.ok [])).today =
      .ok (true, some 0) ∧
    ensure_fresh_data "paris"
        (Env.mk 0 (.ok [⟨some 0, 30⟩]) .fail (.ok []) true (.ok [])) =
      ⟨.ok true, 0, 0, 0, 1⟩ :=
  ⟨rfl, c3_fresh_no_work "paris" _ (some 0) rfl⟩

/-- C5: on a refresh (non-empty stored latest date) where the dedup filter
leaves the filtered series empty, `ensure_fresh_data` returns success with
no prepare call and no ingest call. -/
theorem c5_empty_filter_success (city : String) (env : Env) (dl : Int)
    (existing : List String) (daily fd : DailySeries)
    (h1 : check_data_freshness env.checkResp1 env.today = .ok (false, some dl))
    (h2 : env.fetchResp = .ok daily)
    (h3 : env.existingResp = .ok existing)
    (h4 : filterSeries existing daily = some fd)
    (h5 : fd.time = []) :
    ensure_fresh_data city env = ⟨.ok true, 1, 0, 0, 1⟩ := by
  simp [ensure_fresh_data, h1, h2, h3, h4, h5]

/-- C5 witness: a stale city whose only fetched date is already stored. -/
theorem c5_empty_filter_success_witness :
    check_data_freshness
        (Env.mk 0 (.ok [⟨some 0, 3⟩]) (.ok ⟨["2025-02-16"], []⟩)
          (.ok ["2025-02-16"]) true (.ok [])).checkResp1 0 = .ok (false, some 0) ∧
    filterSeries ["2025-02-16"] ⟨["2025-02-16"], []⟩ = some ⟨[], []⟩ ∧
    ensure_fresh_data "paris"
        (Env.mk 0 (.ok [⟨some 0, 3⟩]) (.ok ⟨["2025-02-16"], []⟩)
          (.ok ["2025-02-16"]) true (.ok [])) =
      ⟨.ok true, 1, 0, 0, 1⟩ :=
  ⟨rfl, rfl, c5_empty_filter_success "paris" _ 0 ["2025-02-16"]
    ⟨["2025-02-16"], []⟩ ⟨[], []⟩ rfl rfl rfl rfl rfl⟩

/-- C6: a falsy forecast response or one missing the `daily` field makes
the whole refresh fail, with no prepare call and no ingest call. -/
theorem c6_bad_fetch_aborts (city : String) (env : Env) (ld : Option Int)
    (h1 : check_data_freshness env.checkResp1 env.today = .ok (false, ld))
    (h2 : env.fetchResp = .fail ∨ env.fetchResp = .noDaily) :
    ensure_fresh_data city env = ⟨.ok false, 1, 0, 0, 1⟩ := by
  cases h2 with
  | inl h => simp [ensure_fresh_data, h1, h]
  | inr h => simp [ensure_fresh_data, h1, h]

/-- C6 witness: a response missing `daily` aborts a stale city's refresh
without preparing or ingesting anything. -/
theorem c6_bad_fetch_aborts_witness :
    check_data_freshness
        (Env.mk 0 (.ok []) .noDaily (.ok []) true (.ok [])).checkResp1 0 =
      .ok (false, none) ∧
    ensure_fresh_data "paris" (Env.mk 0 (.ok []) .noDaily (.ok []) true (.ok [])) =
      ⟨.ok false, 1, 0, 0, 1⟩ :=
  ⟨rfl, c6_bad_fetch_aborts "paris" _ none rfl (Or.inr rfl)⟩

lemma ingestPhase_verify (city : String) (env : Env) (daily : DailySeries)
    (h2 : env.ingestOk = true)
    (h1 : (ingestPhase city env daily).ingestCalls = 1) :
    (ingestPhase city env daily).checkCalls = 2 ∧
      ∀ ld2, check_data_freshness env.checkResp2 env.today = .ok (false, ld2) →
        (ingestPhase city env daily).result = .ok false := by
  unfold ingestPhase at h1 ⊢
  cases hp : prepare_ingestion_data city daily with
  | none => rw [hp] at h1; simp at h1
  | some rows =>
    rw [hp] at h1
    cases rows with
    | nil => simp at h1
    | cons r rs =>
      rw [h2]
      cases hc2 : check_data_freshness env.checkResp2 env.today with
      | error e =>
        refine ⟨rfl, ?_⟩
        intro ld2 hld2
        exact absurd hld2 (by simp)
      | ok p =>
        obtain ⟨f2, ld'⟩ := p
        refine ⟨rfl, ?_⟩
        intro ld2 hld2
        have hf : f2 = false := congrArg Prod.fst (Except.ok.inj hld2)
        subst hf
        rfl

lemma ensure_fresh_data_cases (city : String) (env : Env) :
    (ensure_fresh_data city env).ingestCalls = 0 ∨
      ∃ d, ensure_fresh_data city env = ingestPhase city env d := by
  unfold ensure_fresh_data
  split
  · exact Or.inl rfl
  · split
    · exact Or.inl rfl
    · split
      · exact Or.inl rfl
      · exact Or.inl rfl
      · split
        · exact Or.inr ⟨_, rfl⟩
        · split
          · exact Or.inl rfl
          · split
            · exact Or.inl rfl
            · split
              · exact Or.inl rfl
              · exact Or.inr ⟨_, rfl⟩

/-- C4: whenever `ensure_fresh_data` performs an ingest (and the append
call itself succeeds), the freshness check is run a second time, and a
re-check that still reports not-fresh makes the whole operation return
failure. -/
theorem c4_reverify_after_ingest (city : String) (env : Env)
    (h2 : env.ingestOk = true)
    (h1 : (ensure_fresh_data city env).ingestCalls = 1) :
    (ensure_fresh_data city env).checkCalls = 2 ∧
      ∀ ld2, check_data_freshness env.checkResp2 env.today = .ok (false, ld2) →
        (ensure_fresh_data city env).result = .ok false := by
  cases ensure_fresh_data_cases city env with
  | inl h0 => rw [h0] at h1; exact absurd h1 (by simp)
  | inr hd =>
    obtain ⟨d, hd⟩ := hd
    rw [hd] at h1 ⊢
    exact ingestPhase_verify city env d h2 h1

/-- C4 witness: a first ingestion whose re-check still reports not-fresh
returns failure even though the append succeeded. -/
theorem c4_reverify_after_ingest_witness :
    (Env.mk 0 (.ok []) (.ok ⟨["2025-02-17"], []⟩) (.ok []) true
        (.ok [⟨some 0, 1⟩])).ingestOk = true ∧
    (ensure_fresh_data "paris"
        (Env.mk 0 (.ok []) (.ok ⟨["2025-02-17"], []⟩) (.ok []) true
          (.ok [⟨some 0, 1⟩]))).ingestCalls = 1 ∧
    ((ensure_fresh_data "paris"
        (Env.mk 0 (.ok []) (.ok ⟨["2025-02-17"], []⟩) (.ok []) true
          (.ok [⟨some 0, 1⟩]))).checkCalls = 2 ∧
      ∀ ld2, check_data_freshness
          (Env.mk 0 (.ok []) (.ok ⟨["2025-02-17"], []⟩) (.ok []) true
            (.ok [⟨some 0, 1⟩])).checkResp2 0 = .ok (false, ld2) →
        (ensure_fresh_data "paris"
            (Env.mk 0 (.ok []) (.ok ⟨["2025-02-17"], []⟩) (.ok []) true
              (.ok [⟨some 0, 1⟩]))).result = .ok false) :=
  ⟨rfl, by decide, c4_reverify_after_ingest "paris" _ rfl (by decide)⟩

end WeatherAks

namespace WeatherMain

/-- C10: `get_city_coordinates` in src/main.py returns a two-element tuple
on every unresolved or failed lookup and a three-element tuple on success;
the handler's three-variable unpacking therefore raises on every
unresolved city, landing in the generic exception handler, and the
dedicated "Could not find coordinates for this city." branch is
unreachable on every path. -/
theorem c10_coord_unpack_bug :
    (get_city_coordinates .failed).length = 2 ∧
    (∀ (lat lon : Int) (name : String),
      (get_city_coordinates (.ok lat lon name)).length = 3) ∧
    unpack3 (get_city_coordinates .failed) = none ∧
    (∀ env : HEnv, env.geo = .failed → get_weather env = .genericError) ∧
    (∀ env : HEnv, get_weather env ≠ .coordNotFound) := by
  refine ⟨rfl, fun lat lon name => rfl, rfl, ?_, ?_⟩
  · intro env h
    simp [get_weather, h, get_city_coordinates, unpack3]
  · intro env
    obtain ⟨g, cc, fr, io, vc, sr⟩ := env
    cases g with
    | failed => simp [get_weather, get_city_coordinates, unpack3]
    | ok lat lon name =>
      simp only [get_weather, get_city_coordinates, unpack3]
      cases cc with
      | error e => simp
      | ok cnt =>
        by_cases hcnt : cnt < 30
        · simp only [hcnt, if_true]
          rw [if_neg (by simp : ¬ (PyVal.num lat = PyVal.pyNone ∨
            PyVal.num lon = PyVal.pyNone))]
          cases fr with
          | fail => simp
          | noDaily => simp
          | ok daily =>
            cases hp : WeatherAks.prepare_ingestion_data "city" daily with
            | none => simp [hp]
            | some rows =>
              cases rows with
              | nil => simp [hp]
              | cons r rs =>
                cases io with
                | false => simp [hp]
                | true =>
                  cases vc with
                  | error e => simp [hp]
                  | ok verify_count =>
                    by_cases hv : verify_count < 30
                    · simp [hp, hv]
                    · simp only [hv, if_false]
                      cases sr with
                      | error e => simp [hp, get_weather.statsPhase]
                      | ok hasRow =>
                        cases hasRow <;> simp [hp, get_weather.statsPhase]
        · simp only [hcnt, if_false]
          cases sr with
          | error e => simp [get_weather.statsPhase]
          | ok hasRow => cases hasRow <;> simp [get_weather.statsPhase]

/-- C10 witness: a failed geocoder lookup lands in the generic error
branch, not the dedicated coordinates branch. -/
theorem c10_coord_unpack_bug_witness :
    (HEnv.mk .failed (.ok 0) .fail true (.ok 0) (.ok true)).geo = .failed ∧
    get_weather (HEnv.mk .failed (.ok 0) .fail true (.ok 0) (.ok true)) =
      .genericError ∧
    get_weather (HEnv.mk .failed (.ok 0) .fail true (.ok 0) (.ok true)) ≠
      .coordNotFound :=
  ⟨rfl, c10_coord_unpack_bug.2.2.2.1 _ rfl, c10_coord_unpack_bug.2.2.2.2 _⟩

end WeatherMain
